import Mathlib

/-!
Shallow embedding of the NASA POWER slice/export/visualize pipeline from
`src/power_data_project`: `data_download.py` (`slice_dataset`, `save_outputs`,
`slice_and_save`) and `visualize_map.py` (`_load_dataset`, here
`load_dataset`, and `plot_radiation_map`).

Modelling conventions:

* Coordinate labels and cell values are rationals (`ℚ`); dates are encoded as
  rationals through any order-preserving encoding.  Floating-point rounding is
  out of scope.
* A POWER data variable is a dense array over the labelled axes
  (time, lat, lon), stored flat in row-major (time, lat, lon) order.  An axis
  collapsed by a point selection (or absent) is `none`; an absent axis
  contributes factor 1 to the flat indexing.
* Label-based range selection (`.sel(lat=slice(a, b))`) is the inclusive
  filter over the axis labels, which is the pandas `slice_locs` behaviour on
  the ascending monotone POWER grid.
* File I/O is modelled by passing the written content around explicitly.  The
  binary (NetCDF) artifact is self-describing and preserves the one-variable
  dataset structure exactly; engine selection and on-disk codecs are out of
  scope.
* Python exceptions are structured error values (`Except`); each constructor
  is documented with the `raise` site it models.
-/

namespace Power

/-- Decidable equality of results, for concrete evaluation. -/
instance {e a : Type} [DecidableEq e] [DecidableEq a] :
    DecidableEq (Except e a) := fun x y =>
  match x, y with
  | .ok v, .ok w =>
    if h : v = w then isTrue (by rw [h]) else
      isFalse (by intro hc; cases hc; exact h rfl)
  | .error v, .error w =>
    if h : v = w then isTrue (by rw [h]) else
      isFalse (by intro hc; cases hc; exact h rfl)
  | .ok _, .error _ => isFalse (by intro hc; cases hc)
  | .error _, .ok _ => isFalse (by intro hc; cases hc)

/-- A labelled dense array over (time, lat, lon): an `xarray.DataArray` of the
POWER dataset.  Each axis holds its coordinate labels, `none` when the axis is
absent (e.g. collapsed by a scalar selection).  `values` is flat, row-major in
(time, lat, lon) order. -/
structure DataArray where
  name : Option String
  timeC : Option (List ℚ)
  latC : Option (List ℚ)
  lonC : Option (List ℚ)
  values : List ℚ
  deriving DecidableEq, Repr

/-- Length of an axis; an absent axis counts as 1 for flat indexing. -/
def axLen : Option (List ℚ) → Nat
  | none => 1
  | some cs => cs.length

/-- Row-major flat index of the (time, lat, lon) cell position. -/
def flatIdx (da : DataArray) (t la lo : Nat) : Nat :=
  (t * axLen da.latC + la) * axLen da.lonC + lo

/-- Cell accessor; out-of-range positions default to 0 (never used in range
by the operations below). -/
def getV (da : DataArray) (t la lo : Nat) : ℚ :=
  da.values.getD (flatIdx da t la lo) 0

/-- Row-major dense generation of an (nt, nla, nlo) block of cell values. -/
def mkValues3 (nt nla nlo : Nat) (f : Nat → Nat → Nat → ℚ) : List ℚ :=
  (List.range (nt * nla * nlo)).map fun k =>
    f (k / (nla * nlo)) (k / nlo % nla) (k % nlo)

/-- Positions of the coordinates lying in the inclusive range [a, b]: the
label slice `slice(a, b)` on the ascending POWER grid. -/
def rangeIdxs (cs : List ℚ) (a b : ℚ) : List Nat :=
  (List.range cs.length).filter fun i =>
    decide (a ≤ cs.getD i 0) && decide (cs.getD i 0 ≤ b)

/-- Position of the coordinate nearest to x (pandas method='nearest'; on a
distance tie between neighbours of an ascending index the later, larger
coordinate wins). -/
def nearestIdx (cs : List ℚ) (x : ℚ) : Option Nat :=
  (List.range cs.length).foldl
    (fun acc i =>
      match acc with
      | none => some i
      | some j => if |cs.getD i 0 - x| ≤ |cs.getD j 0 - x| then some i else some j)
    none

/-- Position of an exactly matching coordinate (scalar lookup with
method=None). -/
def exactIdx (cs : List ℚ) (x : ℚ) : Option Nat :=
  (List.range cs.length).find? fun i => decide (cs.getD i 0 = x)

/-- Inclusive label slice on the lat axis: `da.sel(lat=slice(a, b))`. -/
def iselBoxLat (da : DataArray) (a b : ℚ) : DataArray :=
  match da.latC with
  | none => da
  | some cs =>
    let p := rangeIdxs cs a b
    { da with
      latC := some (p.map fun i => cs.getD i 0)
      values := mkValues3 (axLen da.timeC) p.length (axLen da.lonC)
        fun t i lo => getV da t (p.getD i 0) lo }

/-- Inclusive label slice on the lon axis: `da.sel(lon=slice(a, b))`. -/
def iselBoxLon (da : DataArray) (a b : ℚ) : DataArray :=
  match da.lonC with
  | none => da
  | some cs =>
    let p := rangeIdxs cs a b
    { da with
      lonC := some (p.map fun i => cs.getD i 0)
      values := mkValues3 (axLen da.timeC) (axLen da.latC) p.length
        fun t la i => getV da t la (p.getD i 0) }

/-- Inclusive label slice on the time axis:
`da.sel(time=slice(start, end))`. -/
def iselBoxTime (da : DataArray) (a b : ℚ) : DataArray :=
  match da.timeC with
  | none => da
  | some cs =>
    let p := rangeIdxs cs a b
    { da with
      timeC := some (p.map fun i => cs.getD i 0)
      values := mkValues3 p.length (axLen da.latC) (axLen da.lonC)
        fun i la lo => getV da (p.getD i 0) la lo }

/-- Collapse the lat axis to the single position i (scalar selection). -/
def iselPointLat (da : DataArray) (i : Nat) : DataArray :=
  { da with
    latC := none
    values := mkValues3 (axLen da.timeC) 1 (axLen da.lonC)
      fun t _ lo => getV da t i lo }

/-- Collapse the lon axis to the single position i (scalar selection). -/
def iselPointLon (da : DataArray) (i : Nat) : DataArray :=
  { da with
    lonC := none
    values := mkValues3 (axLen da.timeC) (axLen da.latC) 1
      fun t la _ => getV da t la i }

/-- Collapse the time axis to the single position i. -/
def iselPointTime (da : DataArray) (i : Nat) : DataArray :=
  { da with
    timeC := none
    values := mkValues3 1 (axLen da.latC) (axLen da.lonC)
      fun _ la lo => getV da i la lo }

/-- Errors raised inside `slice_dataset` (Python exception sites). -/
inductive SliceErr where
  /-- KeyError from `if var not in ds`, carrying the requested key and
  `list(ds.data_vars)`. -/
  | varNotFound (key : String) (available : List String)
  /-- KeyError from an exact scalar `.sel` (method=None, i.e. nearest=False)
  with no coordinate equal to the requested value. -/
  | scalarNotFound (axis : String) (x : ℚ)
  /-- Failure of `.sel` when a (min, max) tuple reaches the scalar branch of
  `slice_dataset`: the tuple is passed as a coordinate label, not turned into
  a slice, and the label lookup raises. -/
  | tupleLabel (axis : String)
  /-- Nearest-neighbour lookup on an axis with no coordinates. -/
  | emptyAxis (axis : String)
  deriving DecidableEq, Repr

/-- A lat or lon selector of `slice_dataset`: a Python float (point) or a
(min, max) tuple (box). -/
inductive SpatialSel where
  | pt (x : ℚ)
  | box (lo hi : ℚ)
  deriving DecidableEq, Repr

/-- An `xarray.Dataset`: the ordered mapping of data-variable names to
arrays. -/
abbrev Dataset := List (String × DataArray)

/-- The dataset's variable names, `list(ds.data_vars)`. -/
def dsVarNames (ds : Dataset) : List String := ds.map Prod.fst

/-- Dataset item access `ds[var]`: the returned array carries the key as its
name. -/
def dsLookup (ds : Dataset) (k : String) : Option DataArray :=
  (ds.find? fun p => p.1 == k).map fun p => { p.2 with name := some k }

/-- Scalar `.sel` on lat, with method='nearest' when `nearest` is true and
method=None (exact lookup) otherwise. -/
def selScalarLat (da : DataArray) (x : ℚ) (nearest : Bool) :
    Except SliceErr DataArray :=
  match da.latC with
  | none => .ok da
  | some cs =>
    if nearest then
      match nearestIdx cs x with
      | some i => .ok (iselPointLat da i)
      | none => .error (.emptyAxis "lat")
    else
      match exactIdx cs x with
      | some i => .ok (iselPointLat da i)
      | none => .error (.scalarNotFound "lat" x)

/-- Scalar `.sel` on lon, as for lat. -/
def selScalarLon (da : DataArray) (x : ℚ) (nearest : Bool) :
    Except SliceErr DataArray :=
  match da.lonC with
  | none => .ok da
  | some cs =>
    if nearest then
      match nearestIdx cs x with
      | some i => .ok (iselPointLon da i)
      | none => .error (.emptyAxis "lon")
    else
      match exactIdx cs x with
      | some i => .ok (iselPointLon da i)
      | none => .error (.scalarNotFound "lon" x)

/-- The lat axis of the non-box branch of `slice_dataset`: a point is a
scalar label; a (min, max) tuple reaching this branch is passed to `.sel` as
a plain label, which is not a slice, so the lookup fails. -/
def selLatLabel (da : DataArray) (s : SpatialSel) (nearest : Bool) :
    Except SliceErr DataArray :=
  match s with
  | .pt x => selScalarLat da x nearest
  | .box _ _ => .error (.tupleLabel "lat")

/-- The lon axis of the non-box branch of `slice_dataset`, as for lat. -/
def selLonLabel (da : DataArray) (s : SpatialSel) (nearest : Bool) :
    Except SliceErr DataArray :=
  match s with
  | .pt x => selScalarLon da x nearest
  | .box _ _ => .error (.tupleLabel "lon")

/-- Optional inclusive time-range selection: `if time: da =
da.sel(time=slice(start, end))`. -/
def applyTime (da : DataArray) : Option (ℚ × ℚ) → DataArray
  | none => da
  | some (s, e) => iselBoxTime da s e

/-- Embedding of `slice_dataset` (data_download.py).  The variable is looked
up first; when both selectors are tuples the box branch applies label slices
to both axes; otherwise both axes go through the scalar `.sel` branch (lat
first, per the Python dict order), with method='nearest' when `nearest`; the
optional time range is applied last. -/
def slice_dataset (ds : Dataset) (var : String) (lat lon : SpatialSel)
    (time : Option (ℚ × ℚ)) (nearest : Bool) : Except SliceErr DataArray :=
  match dsLookup ds var with
  | none => .error (.varNotFound var (dsVarNames ds))
  | some da =>
    match lat, lon with
    | .box la lb, .box loa lob =>
      .ok (applyTime (iselBoxLon (iselBoxLat da la lb) loa lob) time)
    | latS, lonS =>
      match selLatLabel da latS nearest with
      | .error e => .error e
      | .ok da1 =>
        match selLonLabel da1 lonS nearest with
        | .error e => .error e
        | .ok da2 => .ok (applyTime da2 time)

/-- One row of `da.to_dataframe().reset_index()`: the coordinates of the
present dimensions in dimension order, then the cell value. -/
def rowFor (da : DataArray) (t la lo : Nat) : List ℚ :=
  (match da.timeC with
   | some cs => [cs.getD t 0]
   | none => []) ++
  (match da.latC with
   | some cs => [cs.getD la 0]
   | none => []) ++
  (match da.lonC with
   | some cs => [cs.getD lo 0]
   | none => []) ++
  [getV da t la lo]

/-- All data rows of the exported flat table, one per cell, row-major. -/
def toRows (da : DataArray) : List (List ℚ) :=
  (List.range (axLen da.timeC)).flatMap fun t =>
    (List.range (axLen da.latC)).flatMap fun la =>
      (List.range (axLen da.lonC)).map fun lo => rowFor da t la lo

/-- A flat tabular (CSV) file: header column names and data rows.  Cells are
already parsed values (dates through the same encoding as time coords). -/
structure CsvFile where
  cols : List String
  rows : List (List ℚ)
  deriving DecidableEq, Repr

/-- Python `da.name or "value"`: the fallback applies when the name is
missing, and also when it is the empty string, which is falsy. -/
def orName : Option String → String
  | none => "value"
  | some s => if s = "" then "value" else s

/-- Header of the exported table: the present dimension names in order, then
the value column, named after the array. -/
def csvHeader (da : DataArray) (valueCol : String) : List String :=
  (match da.timeC with
   | some _ => ["time"]
   | none => []) ++
  (match da.latC with
   | some _ => ["lat"]
   | none => []) ++
  (match da.lonC with
   | some _ => ["lon"]
   | none => []) ++
  [valueCol]

/-- Result of `save_outputs`: the NetCDF artifact (a one-variable dataset
written under the derived name), the CSV artifact, and both output paths.
`DataArray.to_dataframe()` raises on an unnamed array, so the CSV is only
produced when the array carries a name (`csv = none` models that failure;
note the Python fallback name is used only for the NetCDF side). -/
structure SaveResult where
  ncVarName : String
  nc : Dataset
  csv : Option CsvFile
  ncPath : String
  csvPath : String
  deriving DecidableEq, Repr

/-- Embedding of `save_outputs` (data_download.py). -/
def save_outputs (da : DataArray) (outDir basename : String) : SaveResult :=
  let name := orName da.name
  { ncVarName := name
    nc := [(name, { da with name := some name })]
    csv := da.name.map fun n => { cols := csvHeader da n, rows := toRows da }
    ncPath := outDir ++ "/" ++ basename ++ ".nc"
    csvPath := outDir ++ "/" ++ basename ++ ".csv" }

/-- Embedding of `slice_and_save` (data_download.py): slices with
`slice_dataset`, leaving `nearest` at its default `true` (the Python call
omits the keyword), optionally materializes (`.load()`, a no-op here), then
saves. -/
def slice_and_save (ds : Dataset) (var : String) (lat lon : SpatialSel)
    (time : Option (ℚ × ℚ)) (outDir basename : String) (load : Bool) :
    Except SliceErr (DataArray × SaveResult) :=
  match slice_dataset ds var lat lon time true with
  | .error e => .error e
  | .ok da =>
    let da1 := if load then da else da
    .ok (da1, save_outputs da1 outDir basename)

/-- ASCII lowercasing of a string (Python str.lower on the ASCII names the
pipeline uses). -/
def lowerStr (s : String) : String :=
  String.mk (s.toList.map Char.toLower)

/-- Index of the last occurrence of c in cs, if any. -/
def lastIdxOf (cs : List Char) (c : Char) : Option Nat :=
  ((List.range cs.length).filter fun i => cs.getD i ' ' == c).getLast?

/-- Extension part of `os.path.splitext(p)`: starts at the last dot after the
last path separator, provided at least one character strictly between the
separator and that dot is not itself a dot (so a leading-dot basename such as
".bashrc" has no extension). -/
def splitextExt (p : String) : String :=
  let cs := p.toList
  let s : Int :=
    match lastIdxOf cs '/' with
    | some i => (i : Int)
    | none => -1
  let d : Int :=
    match lastIdxOf cs '.' with
    | some i => (i : Int)
    | none => -1
  if s < d then
    let dn := d.toNat
    if ((List.range dn).filter fun (j : Nat) =>
        decide (s + 1 ≤ (j : Int)) && (cs.getD j ' ' != '.')).isEmpty
    then ""
    else String.mk (cs.drop dn)
  else ""

/-- Errors raised inside `_load_dataset` (visualize_map.py). -/
inductive LoadErr where
  /-- KeyError when the variable is not among the NetCDF dataset's data
  variables, carrying the key and the available names. -/
  | varNotFoundNc (key : String) (available : List String)
  /-- KeyError when no CSV column case-insensitively matches the variable,
  carrying the key and the non-coordinate columns found. -/
  | colNotFound (key : String) (valueCols : List String)
  /-- KeyError for a required CSV column (time, lat, lon) with no
  case-insensitive match. -/
  | missingRequired (col : String)
  /-- RuntimeError after every NetCDF backend engine failed on the file. -/
  | engineFailure
  /-- Failure of `pd.read_csv` on content that is not a flat table. -/
  | badCsv
  /-- ValueError for a file extension that is neither binary-array nor
  tabular. -/
  | unsupportedFormat (ext : String)
  deriving DecidableEq, Repr

/-- Content of a file on disk, as the loader's backends would parse it. -/
inductive FileContent where
  | nc (ds : Dataset)
  | csv (f : CsvFile)
  deriving DecidableEq, Repr

/-- Python dict comprehension `{c.lower(): c for c in df.columns}` looked up
at a lowercased key: the original spelling of the last matching column
wins. -/
def lowerLookup (cols : List String) (k : String) : Option String :=
  (cols.filter fun c => lowerStr c == k).getLast?

/-- First position of a column name in the header. -/
def colIdx (cols : List String) (c : String) : Nat :=
  cols.findIdx fun x => x == c

/-- Values of the i-th column, one per data row. -/
def colVals (f : CsvFile) (i : Nat) : List ℚ :=
  f.rows.map fun r => r.getD i 0

/-- Insert into an ascending list, keeping it sorted. -/
def insSorted (x : ℚ) : List ℚ → List ℚ
  | [] => [x]
  | y :: ys => if x ≤ y then x :: y :: ys else y :: insSorted x ys

/-- Remove adjacent duplicates. -/
def dedupAdj : List ℚ → List ℚ
  | [] => []
  | [x] => [x]
  | x :: y :: ys =>
    if x = y then dedupAdj (y :: ys) else x :: dedupAdj (y :: ys)

/-- Ascending sort with duplicates removed: the level values of the index
produced by `set_index([...]).to_xarray()`. -/
def sortedUnique (l : List ℚ) : List ℚ :=
  dedupAdj (l.foldr insSorted [])

/-- Value of the last row whose key columns equal (t, la, lo); a duplicate
composite key is undefined behaviour in the source (spec 4.4) and is
modelled as last-write-wins; a missing key yields the NaN fill, modelled
as 0. -/
def lookupCell (f : CsvFile) (ti li oi vi : Nat) (t la lo : ℚ) : ℚ :=
  match (f.rows.filter fun r =>
      decide (r.getD ti 0 = t) && decide (r.getD li 0 = la) &&
      decide (r.getD oi 0 = lo)).getLast? with
  | some r => r.getD vi 0
  | none => 0

/-- Reconstruction of the labelled 3-D array from the flat table:
`df.set_index(["time", "lat", "lon"]).to_xarray()[var]`. -/
def pivotCsv (f : CsvFile) (ti li oi vi : Nat) (varName : String) :
    DataArray :=
  let ts := sortedUnique (colVals f ti)
  let las := sortedUnique (colVals f li)
  let los := sortedUnique (colVals f oi)
  { name := some varName
    timeC := some ts
    latC := some las
    lonC := some los
    values := mkValues3 ts.length las.length los.length fun a b c =>
      lookupCell f ti li oi vi (ts.getD a 0) (las.getD b 0) (los.getD c 0) }

/-- CSV branch of `_load_dataset`: the variable column and each required
column time, lat, lon are located through the lowercased-key dict (so all
four lookups are case-insensitive), then the table is pivoted to a labelled
array. -/
def loadCsv (f : CsvFile) (varName : String) : Except LoadErr DataArray :=
  match lowerLookup f.cols (lowerStr varName) with
  | none =>
    .error (.colNotFound varName (f.cols.filter fun c =>
      !(lowerStr c == "time" || lowerStr c == "lat" || lowerStr c == "lon")))
  | some vcol =>
    match lowerLookup f.cols "time" with
    | none => .error (.missingRequired "time")
    | some tcol =>
      match lowerLookup f.cols "lat" with
      | none => .error (.missingRequired "lat")
      | some lacol =>
        match lowerLookup f.cols "lon" with
        | none => .error (.missingRequired "lon")
        | some locol =>
          .ok (pivotCsv f (colIdx f.cols tcol) (colIdx f.cols lacol)
            (colIdx f.cols locol) (colIdx f.cols vcol) varName)

/-- Embedding of `_load_dataset` (visualize_map.py): dispatch strictly on the
lowercased extension of the path; the NetCDF branch looks the variable up in
the parsed dataset (the latitude/longitude coordinate renaming is a no-op
here since the model always uses canonical lat/lon labels); the CSV branch
validates columns and pivots; any other extension is rejected without
looking at the content. -/
def load_dataset (path : String) (content : FileContent) (varName : String) :
    Except LoadErr DataArray :=
  if lowerStr (splitextExt path) = ".nc" ∨ lowerStr (splitextExt path) = ".nc4"
      ∨ lowerStr (splitextExt path) = ".cdf" then
    match content with
    | .nc ds =>
      match dsLookup ds varName with
      | none => .error (.varNotFoundNc varName (dsVarNames ds))
      | some da => .ok da
    | .csv _ => .error .engineFailure
  else if lowerStr (splitextExt path) = ".csv" then
    match content with
    | .csv f => loadCsv f varName
    | .nc _ => .error .badCsv
  else
    .error (.unsupportedFormat (lowerStr (splitextExt path)))

/-- Arithmetic mean over the time axis, `da.mean("time")`; identity when the
array has no time dimension. -/
def meanTime (da : DataArray) : DataArray :=
  match da.timeC with
  | none => da
  | some ts =>
    { name := da.name
      timeC := none
      latC := da.latC
      lonC := da.lonC
      values := mkValues3 1 (axLen da.latC) (axLen da.lonC) fun _ la lo =>
        (((List.range ts.length).map fun t => getV da t la lo).sum)
          / (ts.length : ℚ) }

/-- The time-collapse step of `plot_radiation_map`: mean over time when
requested and a time dimension exists. -/
def collapseTimeIfMean (meanOverTime : Bool) (da : DataArray) : DataArray :=
  if meanOverTime && da.timeC.isSome then meanTime da else da

/-- Drop a size-1 time axis (one step of `da.squeeze()`). -/
def squeezeTime (da : DataArray) : DataArray :=
  match da.timeC with
  | some [_] => iselPointTime da 0
  | _ => da

/-- Drop a size-1 lat axis. -/
def squeezeLat (da : DataArray) : DataArray :=
  match da.latC with
  | some [_] => iselPointLat da 0
  | _ => da

/-- Drop a size-1 lon axis. -/
def squeezeLon (da : DataArray) : DataArray :=
  match da.lonC with
  | some [_] => iselPointLon da 0
  | _ => da

/-- `da.squeeze()`: drop every size-1 dimension. -/
def squeeze (da : DataArray) : DataArray :=
  squeezeLon (squeezeLat (squeezeTime da))

/-- Embedding of `plot_radiation_map` (visualize_map.py) up to the array that
is actually handed to the plot call: load, collapse time by mean when
requested and present, squeeze.  Rendering, projections and the image file
are outside the model. -/
def plot_radiation_map (path : String) (content : FileContent)
    (varName : String) (mean_over_time : Bool) : Except LoadErr DataArray :=
  match load_dataset path content varName with
  | .error e => .error e
  | .ok da => .ok (squeeze (collapseTimeIfMean mean_over_time da))

/-- Shape: the lengths of the present dimensions in (time, lat, lon)
order. -/
def shape (da : DataArray) : List Nat :=
  ([da.timeC, da.latC, da.lonC].filterMap id).map List.length

/-- Product of all retained dimension lengths. -/
def prodShape (da : DataArray) : Nat := (shape da).prod

/-- Whether a slice result carries the exact-match scalar KeyError. -/
def isScalarNotFoundErr {α : Type} : Except SliceErr α → Bool
  | .error (.scalarNotFound _ _) => true
  | _ => false

/-- The lat coordinates of an array, empty when the axis is absent. -/
def latList (da : DataArray) : List ℚ := da.latC.getD []

/-- The lon coordinates of an array, empty when the axis is absent. -/
def lonList (da : DataArray) : List ℚ := da.lonC.getD []

/-- The time coordinates of an array, empty when the axis is absent. -/
def timeList (da : DataArray) : List ℚ := da.timeC.getD []

/-- Whole-pipeline check, used for concrete evaluation: slice, export, reload
the binary artifact under the same key, compare shape and values. -/
def roundTripOk (ds : Dataset) (var : String) (lat lon : SpatialSel)
    (time : Option (ℚ × ℚ)) (outDir basename : String) : Bool :=
  match slice_dataset ds var lat lon time true with
  | .error _ => false
  | .ok r =>
    let sres := save_outputs r outDir basename
    match load_dataset sres.ncPath (.nc sres.nc) var with
    | .error _ => false
    | .ok r2 => decide (shape r2 = shape r) && decide (r2.values = r.values)

/-! ### Indexing and length lemmas -/

/-- Reading a row-major generated block at a row-major position recovers the
generator. -/
theorem getD_mkValues3 (nt nla nlo : Nat) (f : Nat → Nat → Nat → ℚ)
    (t la lo : Nat) (ht : t < nt) (hla : la < nla) (hlo : lo < nlo) (d : ℚ) :
    (mkValues3 nt nla nlo f).getD ((t * nla + la) * nlo + lo) d = f t la lo := by
  have hlo0 : 0 < nlo := Nat.lt_of_le_of_lt (Nat.zero_le _) hlo
  have hla0 : 0 < nla := Nat.lt_of_le_of_lt (Nat.zero_le _) hla
  have hmid : la * nlo + lo < nla * nlo := by
    calc la * nlo + lo < la * nlo + nlo := by omega
    _ = (la + 1) * nlo := by ring
    _ ≤ nla * nlo := mul_le_mul_right' (by omega) nlo
  have hk : (t * nla + la) * nlo + lo < nt * nla * nlo := by
    calc (t * nla + la) * nlo + lo = t * (nla * nlo) + (la * nlo + lo) := by ring
    _ < t * (nla * nlo) + nla * nlo := by omega
    _ = (t + 1) * (nla * nlo) := by ring
    _ ≤ nt * (nla * nlo) := mul_le_mul_right' (by omega) (nla * nlo)
    _ = nt * nla * nlo := by ring
  have e3 : ((t * nla + la) * nlo + lo) % nlo = lo := by
    have h : (t * nla + la) * nlo + lo = lo + (t * nla + la) * nlo := by ring
    rw [h, Nat.add_mul_mod_self_right, Nat.mod_eq_of_lt hlo]
  have e2 : ((t * nla + la) * nlo + lo) / nlo % nla = la := by
    have h : (t * nla + la) * nlo + lo = lo + (t * nla + la) * nlo := by ring
    rw [h, Nat.add_mul_div_right _ _ hlo0, Nat.div_eq_of_lt hlo]
    have h2 : 0 + (t * nla + la) = la + t * nla := by ring
    rw [h2, Nat.add_mul_mod_self_right, Nat.mod_eq_of_lt hla]
  have e1 : ((t * nla + la) * nlo + lo) / (nla * nlo) = t := by
    have h : (t * nla + la) * nlo + lo = (la * nlo + lo) + t * (nla * nlo) := by
      ring
    rw [h, Nat.add_mul_div_right _ _ (Nat.mul_pos hla0 hlo0),
      Nat.div_eq_of_lt hmid]
    omega
  unfold mkValues3
  rw [List.getD_eq_getElem?_getD, List.getElem?_map, List.getElem?_range hk]
  simp only [Option.map_some', Option.getD_some]
  rw [e1, e2, e3]

/-- Length of a flat map over a range with constant block length. -/
theorem length_flatMap_const {α : Type} (n L : Nat) (g : Nat → List α)
    (h : ∀ i, (g i).length = L) :
    ((List.range n).flatMap g).length = n * L := by
  induction n with
  | zero => simp
  | succ m ih =>
    rw [List.range_succ, List.flatMap_append, List.length_append, ih]
    simp [h m, Nat.succ_mul]

/-- One CSV data row per cell of the array. -/
theorem length_toRows (da : DataArray) :
    (toRows da).length = axLen da.timeC * axLen da.latC * axLen da.lonC := by
  unfold toRows
  rw [length_flatMap_const _ (axLen da.latC * axLen da.lonC)]
  · rw [Nat.mul_assoc]
  · intro t
    rw [length_flatMap_const _ (axLen da.lonC)]
    intro la
    simp

/-- The retained-dimension product agrees with the three-axis product. -/
theorem prodShape_eq (da : DataArray) :
    prodShape da = axLen da.timeC * axLen da.latC * axLen da.lonC := by
  obtain ⟨nm, tC, laC, loC, vs⟩ := da
  unfold prodShape shape axLen
  cases tC <;> cases laC <;> cases loC <;>
    simp [List.filterMap, List.prod_cons, List.prod_nil, Nat.mul_assoc,
      Nat.mul_one, Nat.one_mul]

/-! ### Concrete fixtures for witnesses and counterexamples -/

/-- A small POWER-style variable: 1 time step, 2 lats, 2 lons. -/
def arrV : DataArray :=
  { name := some "v", timeC := some [0], latC := some [0, 1],
    lonC := some [0, 1], values := [1, 2, 3, 4] }

/-- A one-variable dataset under the key "v". -/
def dsV : Dataset := [("v", arrV)]

/-- A dataset whose only variable key is the empty string. -/
def dsE : Dataset := [("", arrV)]

/-- A 3 x 4 x 2 variable (the spec's synthetic row-count example). -/
def da342 : DataArray :=
  { name := some "v", timeC := some [0, 1, 2], latC := some [10, 20, 30, 40],
    lonC := some [0, 1],
    values := [0, 1, 2, 3, 4, 5, 6, 7, 8, 9, 10, 11, 12, 13, 14, 15, 16, 17,
      18, 19, 20, 21, 22, 23] }

/-- A 3-time-step variable over a 1 x 2 grid; cell (0, 0) holds 1, 3, 5 over
time (mean 3). -/
def daM : DataArray :=
  { name := some "v", timeC := some [0, 1, 2], latC := some [10],
    lonC := some [20, 30], values := [1, 2, 3, 4, 5, 6] }

/-- An array carrying no name. -/
def arrNoName : DataArray :=
  { name := none, timeC := some [0], latC := some [0], lonC := some [0],
    values := [7] }

/-- An array whose carried name is the empty string. -/
def arrBlank : DataArray :=
  { name := some "", timeC := some [0], latC := some [0], lonC := some [0],
    values := [7] }

/-- A CSV whose time column is spelled with a capital letter. -/
def csvCased : CsvFile :=
  { cols := ["Time", "lat", "lon", "X"], rows := [[1, 2, 3, 4]] }

/-! ### C7: exported tabular row count -/

/-- C7: for every sliced array that the exporter can tabulate, the exported
CSV has exactly one data row per element, i.e. its row count equals the
product of the lengths of all retained dimensions. -/
theorem C7_csv_row_count (da : DataArray) (outDir basename : String)
    (f : CsvFile) (h : (save_outputs da outDir basename).csv = some f) :
    f.rows.length = prodShape da := by
  simp only [save_outputs, Option.map_eq_some'] at h
  obtain ⟨n, hn, hf⟩ := h
  rw [← hf]
  show (toRows da).length = prodShape da
  rw [length_toRows, prodShape_eq]

/-- C7 witness: the synthetic 3 x 4 x 2 array exports 24 rows. -/
theorem C7_witness :
    ∃ f, (save_outputs da342 "d" "b").csv = some f ∧ f.rows.length = 24 :=
  ⟨_, rfl, (C7_csv_row_count da342 "d" "b" _ rfl).trans (by decide)⟩

/-! ### C8: mean over time before rendering -/

/-- C8: with meanOverTime true and a time dimension present, every grid
cell of the array handed on for rendering holds the arithmetic mean of that
cell's values across all time steps. -/
theorem C8_mean_over_time (da : DataArray) (ts : List ℚ) (la lo : Nat)
    (ht : da.timeC = some ts) (hla : la < axLen da.latC)
    (hlo : lo < axLen da.lonC) :
    getV (collapseTimeIfMean true da) 0 la lo =
      (((List.range ts.length).map fun t => getV da t la lo).sum)
        / (ts.length : ℚ) := by
  obtain ⟨nm, tC, laC, loC, vs⟩ := da
  subst ht
  simp only [collapseTimeIfMean, Option.isSome_some, Bool.and_self, if_true,
    meanTime]
  simp only [getV, flatIdx]
  exact getD_mkValues3 1 _ _ _ 0 la lo (by omega) hla hlo 0

/-- C8 witness: cell (0, 0) of the 3-step fixture renders to the
hand-computed mean (1 + 3 + 5) / 3 = 3. -/
theorem C8_witness : getV (collapseTimeIfMean true daM) 0 0 0 = 3 := by
  rw [C8_mean_over_time daM [0, 1, 2] 0 0 rfl (by decide) (by decide)]
  norm_num [List.range_succ, getV, flatIdx, daM, axLen, List.getD]

/-! ### C2: missing variable errors -/

/-- Variable keys absent from the name list are not found by item access. -/
theorem dsLookup_eq_none (ds : Dataset) (var : String)
    (h : var ∉ dsVarNames ds) : dsLookup ds var = none := by
  have h2 : ds.find? (fun p => p.1 == var) = none := by
    rw [List.find?_eq_none]
    intro p hp
    simp only [beq_iff_eq]
    intro heq
    exact h (List.mem_map.mpr ⟨p, hp, heq⟩)
  unfold dsLookup
  rw [h2]
  rfl

/-- C2: for a variable name not present, slice_dataset and the loader's
binary path raise the KeyError carrying the requested key and the dataset's
actual variable list. -/
theorem C2_missing_variable :
    (∀ (ds : Dataset) (var : String) (lat lon : SpatialSel)
        (time : Option (ℚ × ℚ)) (nr : Bool), var ∉ dsVarNames ds →
        slice_dataset ds var lat lon time nr =
          .error (.varNotFound var (dsVarNames ds))) ∧
    (∀ (p : String) (ds : Dataset) (var : String),
        lowerStr (splitextExt p) = ".nc" → var ∉ dsVarNames ds →
        load_dataset p (.nc ds) var =
          .error (.varNotFoundNc var (dsVarNames ds))) := by
  constructor
  · intro ds var lat lon time nr h
    unfold slice_dataset
    rw [dsLookup_eq_none ds var h]
  · intro p ds var he h
    unfold load_dataset
    rw [he, if_pos (Or.inl rfl)]
    simp only [dsLookup_eq_none ds var h]

/-- C2 witness: a key absent from the fixture dataset fails both paths with
the available-name list attached. -/
theorem C2_witness :
    slice_dataset dsV "b" (.box 0 1) (.box 0 1) none true =
      .error (.varNotFound "b" (dsVarNames dsV)) ∧
    load_dataset "f.nc" (.nc dsV) "b" =
      .error (.varNotFoundNc "b" (dsVarNames dsV)) :=
  ⟨C2_missing_variable.1 dsV "b" (.box 0 1) (.box 0 1) none true (by decide),
   C2_missing_variable.2 "f.nc" dsV "b" (by decide) (by decide)⟩

/-! ### C5: strict extension dispatch -/

/-- C5: for a path whose lowercased extension is neither a binary-array
extension nor the tabular extension, the loader fails with the
unsupported-format error whatever the file content is (so before any
parse). -/
theorem C5_unsupported (p : String) (content : FileContent) (var : String)
    (h : lowerStr (splitextExt p) ∉
      ([".nc", ".nc4", ".cdf", ".csv"] : List String)) :
    load_dataset p content var =
      .error (.unsupportedFormat (lowerStr (splitextExt p))) := by
  simp only [List.mem_cons, List.not_mem_nil, or_false, not_or] at h
  obtain ⟨h1, h2, h3, h4⟩ := h
  have hA : ¬(lowerStr (splitextExt p) = ".nc" ∨
      lowerStr (splitextExt p) = ".nc4" ∨ lowerStr (splitextExt p) = ".cdf") := by
    push_neg
    exact ⟨h1, h2, h3⟩
  unfold load_dataset
  rw [if_neg hA, if_neg h4]

/-- C5 witness: a .txt path is rejected regardless of content. -/
theorem C5_witness :
    load_dataset "data.txt" (.nc dsV) "v" =
      .error (.unsupportedFormat (lowerStr (splitextExt "data.txt"))) :=
  C5_unsupported "data.txt" (.nc dsV) "v" (by decide)

/-! ### C9: binary artifact variable name -/

/-- C9 amended: the binary artifact name is the carried name whenever it is
present and nonempty; the fallback label is used when the name is absent or
the empty string. -/
theorem C9_nc_artifact_name (da : DataArray) (outDir basename : String) :
    ((da.name = none ∨ da.name = some "") →
      (save_outputs da outDir basename).ncVarName = "value") ∧
    (∀ s, da.name = some s → s ≠ "" →
      (save_outputs da outDir basename).ncVarName = s) := by
  constructor
  · rintro (h | h) <;> simp [save_outputs, orName, h]
  · intro s hs hne
    simp [save_outputs, orName, hs, hne]

/-- C9 witness: a named array keeps its name; an unnamed one gets the
fallback. -/
theorem C9_witness :
    (save_outputs arrV "d" "b").ncVarName = "v" ∧
    (save_outputs arrNoName "d" "b").ncVarName = "value" :=
  ⟨(C9_nc_artifact_name arrV "d" "b").2 "v" rfl (by decide),
   (C9_nc_artifact_name arrNoName "d" "b").1 (Or.inl rfl)⟩

/-- C9 counterexample: an array carrying the empty string as its name has a
name, yet the fallback label is used (Python or-falsiness). -/
theorem C9_cex :
    arrBlank.name = some "" ∧ arrBlank.name ≠ none ∧
    (save_outputs arrBlank "d" "b").ncVarName = "value" :=
  ⟨rfl, by decide, rfl⟩

/-! ### C4: mixed box/point selection -/

/-- C4: a mixed selection (box latitude with point longitude) does not
perform the inclusive-range selection on the box axis: the tuple reaches the
scalar branch of slice_dataset, is passed to .sel as a plain label, and the
call fails, although both lat coordinates 0 and 1 lie inside the box
(0, 10). -/
theorem C4_mixed_box_point :
    slice_dataset dsV "v" (.box 0 10) (.pt 1) none true =
      .error (.tupleLabel "lat") := by decide

/-! ### C6: CSV column matching -/

/-- The lowercased-key dict lookup succeeds exactly when some column
lowercases to the key. -/
theorem lowerLookup_isSome (cols : List String) (k : String) :
    (lowerLookup cols k).isSome = true ↔ k ∈ cols.map lowerStr := by
  unfold lowerLookup
  rw [List.getLast?_isSome]
  constructor
  · intro h
    obtain ⟨c, hc⟩ := List.exists_mem_of_ne_nil _ h
    have hm := List.mem_filter.mp hc
    exact List.mem_map.mpr ⟨c, hm.1, by simpa using hm.2⟩
  · intro h
    obtain ⟨c, hc, he⟩ := List.mem_map.mp h
    intro hnil
    have := List.filter_eq_nil_iff.mp hnil c hc
    simp [he] at this

/-- The success of the CSV branch as a conjunction of the four column
lookups. -/
theorem loadCsv_isOk (f : CsvFile) (varName : String) :
    (loadCsv f varName).isOk =
      ((lowerLookup f.cols (lowerStr varName)).isSome &&
       (lowerLookup f.cols "time").isSome &&
       (lowerLookup f.cols "lat").isSome &&
       (lowerLookup f.cols "lon").isSome) := by
  unfold loadCsv
  cases lowerLookup f.cols (lowerStr varName) <;>
    cases lowerLookup f.cols "time" <;>
    cases lowerLookup f.cols "lat" <;>
    cases lowerLookup f.cols "lon" <;> rfl

/-- C6 amended: the CSV branch requires columns time, lat, lon and the
requested variable, and all four of these column names are matched
case-insensitively (not just the variable column). -/
theorem C6_csv_required_columns (f : CsvFile) (varName : String) :
    (loadCsv f varName).isOk = true ↔
      (lowerStr varName ∈ f.cols.map lowerStr ∧
       "time" ∈ f.cols.map lowerStr ∧
       "lat" ∈ f.cols.map lowerStr ∧
       "lon" ∈ f.cols.map lowerStr) := by
  rw [loadCsv_isOk]
  simp only [Bool.and_eq_true, lowerLookup_isSome]
  tauto

/-- C6 counterexample: a CSV whose time column is spelled "Time" has no
exact "time" column, yet the loader accepts it, so the required columns are
not matched exactly. -/
theorem C6_cex :
    (load_dataset "t.csv" (.csv csvCased) "X").isOk = true ∧
    "time" ∉ csvCased.cols ∧ "Time" ∈ csvCased.cols :=
  ⟨by decide, by decide, by decide⟩

/-! ### C10: slice_and_save never hits the exact-match scalar error -/

/-- With method='nearest', a scalar lat selection never raises the
exact-match KeyError. -/
theorem selScalarLat_true_no_scalarErr (da : DataArray) (x : ℚ)
    (e : SliceErr) (h : selScalarLat da x true = .error e) :
    e = .emptyAxis "lat" := by
  unfold selScalarLat at h
  split at h
  · simp at h
  · rw [if_pos rfl] at h
    split at h
    · simp at h
    · exact (Except.error.inj h).symm

/-- With method='nearest', a scalar lon selection never raises the
exact-match KeyError. -/
theorem selScalarLon_true_no_scalarErr (da : DataArray) (x : ℚ)
    (e : SliceErr) (h : selScalarLon da x true = .error e) :
    e = .emptyAxis "lon" := by
  unfold selScalarLon at h
  split at h
  · simp at h
  · rw [if_pos rfl] at h
    split at h
    · simp at h
    · exact (Except.error.inj h).symm

/-- With method='nearest', the scalar-branch lat selection never raises the
exact-match KeyError. -/
theorem selLatLabel_no_scalarErr (da : DataArray) (s : SpatialSel)
    (e : SliceErr) (h : selLatLabel da s true = .error e) :
    e = .tupleLabel "lat" ∨ e = .emptyAxis "lat" := by
  cases s with
  | box a b =>
    left
    exact (Except.error.inj h).symm
  | pt x =>
    right
    simp only [selLatLabel] at h
    exact selScalarLat_true_no_scalarErr da x e h

/-- With method='nearest', the scalar-branch lon selection never raises the
exact-match KeyError. -/
theorem selLonLabel_no_scalarErr (da : DataArray) (s : SpatialSel)
    (e : SliceErr) (h : selLonLabel da s true = .error e) :
    e = .tupleLabel "lon" ∨ e = .emptyAxis "lon" := by
  cases s with
  | box a b =>
    left
    exact (Except.error.inj h).symm
  | pt x =>
    right
    simp only [selLonLabel] at h
    exact selScalarLon_true_no_scalarErr da x e h

/-- Slicing with the default nearest=true never produces the exact-match
scalar KeyError. -/
theorem slice_true_no_scalarErr (ds : Dataset) (var : String)
    (lat lon : SpatialSel) (time : Option (ℚ × ℚ)) :
    isScalarNotFoundErr (slice_dataset ds var lat lon time true) = false := by
  unfold slice_dataset
  cases hds : dsLookup ds var with
  | none => rfl
  | some da =>
    have hgen : ∀ latS lonS, isScalarNotFoundErr
        (match selLatLabel da latS true with
         | .error e => .error e
         | .ok da1 =>
           match selLonLabel da1 lonS true with
           | .error e => .error e
           | .ok da2 => (.ok (applyTime da2 time) : Except SliceErr DataArray)) =
        false := by
      intro latS lonS
      cases h1 : selLatLabel da latS true with
      | error e =>
        rcases selLatLabel_no_scalarErr da latS e h1 with he | he <;>
          subst he <;> rfl
      | ok da1 =>
        show isScalarNotFoundErr
            (match selLonLabel da1 lonS true with
             | .error e => .error e
             | .ok da2 =>
               (.ok (applyTime da2 time) : Except SliceErr DataArray)) =
          false
        cases h2 : selLonLabel da1 lonS true with
        | error e =>
          rcases selLonLabel_no_scalarErr da1 lonS e h2 with he | he <;>
            subst he <;> rfl
        | ok da2 => rfl
    cases lat with
    | box la lb =>
      cases lon with
      | box loa lob => rfl
      | pt y => exact hgen (.box la lb) (.pt y)
    | pt x =>
      cases lon with
      | box loa lob => exact hgen (.pt x) (.box loa lob)
      | pt y => exact hgen (.pt x) (.pt y)

/-- C10: slice_and_save leaves the nearest toggle at its default true, so no
input to it can trigger the exact-match scalar KeyError of slice_dataset. -/
theorem C10_no_exact_scalar_error (ds : Dataset) (var : String)
    (lat lon : SpatialSel) (time : Option (ℚ × ℚ))
    (outDir basename : String) (load : Bool) :
    isScalarNotFoundErr
      (slice_and_save ds var lat lon time outDir basename load) = false := by
  unfold slice_and_save
  cases hs : slice_dataset ds var lat lon time true with
  | ok da => rfl
  | error e =>
    have h := slice_true_no_scalarErr ds var lat lon time
    rw [hs] at h
    cases e <;> first | rfl | exact h

/-! ### C3: box selection shrinks; swapped bounds give an empty result -/

/-- Reading every position of a list back through getD gives the list. -/
theorem map_getD_range (cs : List ℚ) :
    ((List.range cs.length).map fun i => cs.getD i 0) = cs := by
  induction cs with
  | nil => rfl
  | cons c cs ih =>
    rw [List.length_cons, List.range_succ_eq_map, List.map_cons,
      List.map_map]
    simp only [Function.comp_def, Nat.succ_eq_add_one, List.getD_cons_succ,
      List.getD_cons_zero]
    rw [ih]

/-- The coordinates selected by a range are a sublist of the axis. -/
theorem rangeIdxs_map_sublist (cs : List ℚ) (a b : ℚ) :
    List.Sublist ((rangeIdxs cs a b).map fun i => cs.getD i 0) cs := by
  have h : List.Sublist (rangeIdxs cs a b) (List.range cs.length) :=
    List.filter_sublist _
  have h2 := h.map fun i => cs.getD i 0
  rw [map_getD_range] at h2
  exact h2

/-- A range whose bounds are given in swapped order selects nothing. -/
theorem rangeIdxs_swapped (cs : List ℚ) (a b : ℚ) (h : b < a) :
    rangeIdxs cs a b = [] := by
  unfold rangeIdxs
  rw [List.filter_eq_nil_iff]
  intro i _
  simp only [Bool.and_eq_true, decide_eq_true_eq, not_and]
  intro h1 h2
  linarith

/-- A generated block with no lat rows is empty. -/
theorem mkValues3_mid_zero (nt nlo : Nat) (f : Nat → Nat → Nat → ℚ) :
    mkValues3 nt 0 nlo f = [] := by
  unfold mkValues3
  simp

/-- A generated block with no lon columns is empty. -/
theorem mkValues3_right_zero (nt nla : Nat) (f : Nat → Nat → Nat → ℚ) :
    mkValues3 nt nla 0 f = [] := by
  unfold mkValues3
  simp

/-- The lon box does not touch the lat axis. -/
theorem latC_iselBoxLon (da : DataArray) (a b : ℚ) :
    (iselBoxLon da a b).latC = da.latC := by
  unfold iselBoxLon
  cases da.lonC <;> rfl

/-- The time slice does not touch the lat axis. -/
theorem latC_iselBoxTime (da : DataArray) (a b : ℚ) :
    (iselBoxTime da a b).latC = da.latC := by
  unfold iselBoxTime
  cases da.timeC <;> rfl

/-- The lat box does not touch the lon axis. -/
theorem lonC_iselBoxLat (da : DataArray) (a b : ℚ) :
    (iselBoxLat da a b).lonC = da.lonC := by
  unfold iselBoxLat
  cases da.latC <;> rfl

/-- The time slice does not touch the lon axis. -/
theorem lonC_iselBoxTime (da : DataArray) (a b : ℚ) :
    (iselBoxTime da a b).lonC = da.lonC := by
  unfold iselBoxTime
  cases da.timeC <;> rfl

/-- The lat box does not touch the time axis. -/
theorem timeC_iselBoxLat (da : DataArray) (a b : ℚ) :
    (iselBoxLat da a b).timeC = da.timeC := by
  unfold iselBoxLat
  cases da.latC <;> rfl

/-- The lon box does not touch the time axis. -/
theorem timeC_iselBoxLon (da : DataArray) (a b : ℚ) :
    (iselBoxLon da a b).timeC = da.timeC := by
  unfold iselBoxLon
  cases da.lonC <;> rfl

/-- The optional time slice does not touch the lat axis. -/
theorem latC_applyTime (da : DataArray) (t : Option (ℚ × ℚ)) :
    (applyTime da t).latC = da.latC := by
  cases t with
  | none => rfl
  | some p => exact latC_iselBoxTime da p.1 p.2

/-- The optional time slice does not touch the lon axis. -/
theorem lonC_applyTime (da : DataArray) (t : Option (ℚ × ℚ)) :
    (applyTime da t).lonC = da.lonC := by
  cases t with
  | none => rfl
  | some p => exact lonC_iselBoxTime da p.1 p.2

/-- A lat box only shrinks the lat coordinates. -/
theorem latList_iselBoxLat_sublist (da : DataArray) (a b : ℚ) :
    List.Sublist (latList (iselBoxLat da a b)) (latList da) := by
  unfold iselBoxLat latList
  cases hc : da.latC with
  | none => simp [hc]
  | some cs => exact rangeIdxs_map_sublist cs a b

/-- A lon box only shrinks the lon coordinates. -/
theorem lonList_iselBoxLon_sublist (da : DataArray) (a b : ℚ) :
    List.Sublist (lonList (iselBoxLon da a b)) (lonList da) := by
  unfold iselBoxLon lonList
  cases hc : da.lonC with
  | none => simp [hc]
  | some cs => exact rangeIdxs_map_sublist cs a b

/-- A time slice only shrinks the time coordinates. -/
theorem timeList_iselBoxTime_sublist (da : DataArray) (a b : ℚ) :
    List.Sublist (timeList (iselBoxTime da a b)) (timeList da) := by
  unfold iselBoxTime timeList
  cases hc : da.timeC with
  | none => simp [hc]
  | some cs => exact rangeIdxs_map_sublist cs a b

/-- The optional time slice only shrinks the time coordinates. -/
theorem timeList_applyTime_sublist (da : DataArray) (t : Option (ℚ × ℚ)) :
    List.Sublist (timeList (applyTime da t)) (timeList da) := by
  cases t with
  | none => exact List.Sublist.refl _
  | some p => exact timeList_iselBoxTime_sublist da p.1 p.2

/-- A swapped lat box leaves no lat coordinates, and (when the lat axis is
present) no values. -/
theorem latList_iselBoxLat_swapped (da : DataArray) (a b : ℚ) (h : b < a) :
    latList (iselBoxLat da a b) = [] ∧
      (da.latC.isSome = true → axLen (iselBoxLat da a b).latC = 0 ∧
        (iselBoxLat da a b).values = []) := by
  cases hc : da.latC with
  | none => simp [iselBoxLat, latList, hc]
  | some cs =>
    simp [iselBoxLat, latList, hc, rangeIdxs_swapped cs a b h, axLen,
      mkValues3_mid_zero]

/-- A swapped lon box leaves no lon coordinates, and (when the lon axis is
present) no values. -/
theorem lonList_iselBoxLon_swapped (da : DataArray) (a b : ℚ) (h : b < a) :
    lonList (iselBoxLon da a b) = [] ∧
      (da.lonC.isSome = true → axLen (iselBoxLon da a b).lonC = 0 ∧
        (iselBoxLon da a b).values = []) := by
  cases hc : da.lonC with
  | none => simp [iselBoxLon, lonList, hc]
  | some cs =>
    simp [iselBoxLon, lonList, hc, rangeIdxs_swapped cs a b h, axLen,
      mkValues3_right_zero]

/-- Operations downstream of an empty lat axis keep the value list empty. -/
theorem values_iselBoxLon_of_lat_zero (da : DataArray) (a b : ℚ)
    (h : axLen da.latC = 0) (hv : da.values = []) :
    (iselBoxLon da a b).values = [] := by
  cases hc : da.lonC with
  | none => simp [iselBoxLon, hc, hv]
  | some cs => simp [iselBoxLon, hc, h, mkValues3_mid_zero]

/-- A time slice of an array with an empty lat axis stays empty. -/
theorem values_iselBoxTime_of_lat_zero (da : DataArray) (a b : ℚ)
    (h : axLen da.latC = 0) (hv : da.values = []) :
    (iselBoxTime da a b).values = [] := by
  cases hc : da.timeC with
  | none => simp [iselBoxTime, hc, hv]
  | some cs => simp [iselBoxTime, hc, h, mkValues3_mid_zero]

/-- The optional time slice of an array with an empty lat axis stays
empty. -/
theorem values_applyTime_of_lat_zero (da : DataArray) (t : Option (ℚ × ℚ))
    (h : axLen da.latC = 0) (hv : da.values = []) :
    (applyTime da t).values = [] := by
  cases t with
  | none => exact hv
  | some p => exact values_iselBoxTime_of_lat_zero da p.1 p.2 h hv

/-- A time slice of an array with an empty lon axis stays empty. -/
theorem values_iselBoxTime_of_lon_zero (da : DataArray) (a b : ℚ)
    (h : axLen da.lonC = 0) (hv : da.values = []) :
    (iselBoxTime da a b).values = [] := by
  cases hc : da.timeC with
  | none => simp [iselBoxTime, hc, hv]
  | some cs => simp [iselBoxTime, hc, h, mkValues3_right_zero]

/-- The optional time slice of an array with an empty lon axis stays
empty. -/
theorem values_applyTime_of_lon_zero (da : DataArray) (t : Option (ℚ × ℚ))
    (h : axLen da.lonC = 0) (hv : da.values = []) :
    (applyTime da t).values = [] := by
  cases t with
  | none => exact hv
  | some p => exact values_iselBoxTime_of_lon_zero da p.1 p.2 h hv

/-- C3: a box/box selection never raises; it only shrinks each axis (every
resulting coordinate list is a sublist of the source's), and swapped
(min > max) bounds on an axis yield an empty axis and an empty value
list. -/
theorem C3_box_selection (ds : Dataset) (var : String) (da : DataArray)
    (la lb loa lob : ℚ) (time : Option (ℚ × ℚ))
    (h : dsLookup ds var = some da)
    (hlat : da.latC.isSome = true) (hlon : da.lonC.isSome = true) :
    ∃ r, slice_dataset ds var (.box la lb) (.box loa lob) time true =
        .ok r ∧
      List.Sublist (latList r) (latList da) ∧
      List.Sublist (lonList r) (lonList da) ∧
      List.Sublist (timeList r) (timeList da) ∧
      (lb < la → latList r = [] ∧ r.values = []) ∧
      (lob < loa → lonList r = [] ∧ r.values = []) := by
  refine ⟨applyTime (iselBoxLon (iselBoxLat da la lb) loa lob) time,
    ?_, ?_, ?_, ?_, ?_, ?_⟩
  · unfold slice_dataset
    rw [h]
  · rw [latList, latC_applyTime, latC_iselBoxLon]
    exact latList_iselBoxLat_sublist da la lb
  · rw [lonList, lonC_applyTime]
    have h2 := lonList_iselBoxLon_sublist (iselBoxLat da la lb) loa lob
    rw [lonList, lonList, lonC_iselBoxLat] at h2
    exact h2
  · have h2 := timeList_applyTime_sublist
      (iselBoxLon (iselBoxLat da la lb) loa lob) time
    rw [timeList, timeList, timeC_iselBoxLon, timeC_iselBoxLat] at h2
    exact h2
  · intro hswap
    have hs := latList_iselBoxLat_swapped da la lb hswap
    have hz := hs.2 hlat
    constructor
    · rw [latList, latC_applyTime, latC_iselBoxLon]
      exact hs.1
    · apply values_applyTime_of_lat_zero
      · rw [latC_iselBoxLon]
        exact hz.1
      · exact values_iselBoxLon_of_lat_zero _ loa lob hz.1 hz.2
  · intro hswap
    have hpres : (iselBoxLat da la lb).lonC.isSome = true := by
      rw [lonC_iselBoxLat]
      exact hlon
    have hs := lonList_iselBoxLon_swapped (iselBoxLat da la lb) loa lob hswap
    have hz := hs.2 hpres
    constructor
    · rw [lonList, lonC_applyTime]
      exact hs.1
    · exact values_applyTime_of_lon_zero _ time hz.1 hz.2

/-- C3 witness: swapped lat bounds (5, 1) on the fixture give an empty
result; the in-range lon box only shrinks. -/
theorem C3_witness :
    ∃ r, slice_dataset dsV "v" (.box 5 1) (.box 0 10) none true = .ok r ∧
      List.Sublist (latList r) (latList arrV) ∧
      List.Sublist (lonList r) (lonList arrV) ∧
      List.Sublist (timeList r) (timeList arrV) ∧
      ((1 : ℚ) < 5 → latList r = [] ∧ r.values = []) ∧
      ((10 : ℚ) < 0 → lonList r = [] ∧ r.values = []) :=
  C3_box_selection dsV "v" arrV 5 1 0 10 none (by decide) rfl rfl

/-! ### C1: slice / export / load round trip -/

/-- The lat box keeps the array name. -/
theorem name_iselBoxLat (da : DataArray) (a b : ℚ) :
    (iselBoxLat da a b).name = da.name := by
  unfold iselBoxLat
  cases da.latC <;> rfl

/-- The lon box keeps the array name. -/
theorem name_iselBoxLon (da : DataArray) (a b : ℚ) :
    (iselBoxLon da a b).name = da.name := by
  unfold iselBoxLon
  cases da.lonC <;> rfl

/-- The time slice keeps the array name. -/
theorem name_iselBoxTime (da : DataArray) (a b : ℚ) :
    (iselBoxTime da a b).name = da.name := by
  unfold iselBoxTime
  cases da.timeC <;> rfl

/-- The optional time slice keeps the array name. -/
theorem name_applyTime (da : DataArray) (t : Option (ℚ × ℚ)) :
    (applyTime da t).name = da.name := by
  cases t with
  | none => rfl
  | some p => exact name_iselBoxTime da p.1 p.2

/-- A successful scalar lat selection keeps the array name. -/
theorem name_selScalarLat (da : DataArray) (x : ℚ) (nr : Bool)
    (r : DataArray) (h : selScalarLat da x nr = .ok r) : r.name = da.name := by
  unfold selScalarLat at h
  split at h
  · rw [← Except.ok.inj h]
  · split at h
    · split at h
      · rw [← Except.ok.inj h]
        rfl
      · simp at h
    · split at h
      · rw [← Except.ok.inj h]
        rfl
      · simp at h

/-- A successful scalar lon selection keeps the array name. -/
theorem name_selScalarLon (da : DataArray) (x : ℚ) (nr : Bool)
    (r : DataArray) (h : selScalarLon da x nr = .ok r) : r.name = da.name := by
  unfold selScalarLon at h
  split at h
  · rw [← Except.ok.inj h]
  · split at h
    · split at h
      · rw [← Except.ok.inj h]
        rfl
      · simp at h
    · split at h
      · rw [← Except.ok.inj h]
        rfl
      · simp at h

/-- A successful lat label selection keeps the array name. -/
theorem name_selLatLabel (da : DataArray) (s : SpatialSel) (nr : Bool)
    (r : DataArray) (h : selLatLabel da s nr = .ok r) : r.name = da.name := by
  cases s with
  | pt x =>
    simp only [selLatLabel] at h
    exact name_selScalarLat da x nr r h
  | box a b => simp [selLatLabel] at h

/-- A successful lon label selection keeps the array name. -/
theorem name_selLonLabel (da : DataArray) (s : SpatialSel) (nr : Bool)
    (r : DataArray) (h : selLonLabel da s nr = .ok r) : r.name = da.name := by
  cases s with
  | pt x =>
    simp only [selLonLabel] at h
    exact name_selScalarLon da x nr r h
  | box a b => simp [selLonLabel] at h

/-- A successful run of the scalar branch of slice_dataset keeps the array
name. -/
theorem name_scalarBranch (da : DataArray) (latS lonS : SpatialSel)
    (nr : Bool) (time : Option (ℚ × ℚ)) (r : DataArray)
    (h : (match selLatLabel da latS nr with
          | .error e => (.error e : Except SliceErr DataArray)
          | .ok da1 =>
            match selLonLabel da1 lonS nr with
            | .error e => (.error e : Except SliceErr DataArray)
            | .ok da2 => .ok (applyTime da2 time)) =
        .ok r) :
    r.name = da.name := by
  cases h1 : selLatLabel da latS nr with
  | error e =>
    rw [h1] at h
    have h3 : (Except.error e : Except SliceErr DataArray) = .ok r := h
    simp at h3
  | ok da1 =>
    rw [h1] at h
    have h3 : (match selLonLabel da1 lonS nr with
        | .error e => (.error e : Except SliceErr DataArray)
        | .ok da2 => .ok (applyTime da2 time)) = .ok r := h
    cases h2 : selLonLabel da1 lonS nr with
    | error e =>
      rw [h2] at h3
      have h4 : (Except.error e : Except SliceErr DataArray) = .ok r := h3
      simp at h4
    | ok da2 =>
      rw [h2] at h3
      have h4 : Except.ok (applyTime da2 time) = .ok r := h3
      rw [← Except.ok.inj h4, name_applyTime,
        name_selLonLabel da1 lonS nr da2 h2,
        name_selLatLabel da latS nr da1 h1]

/-- A successful slice carries the looked-up variable key as its name. -/
theorem slice_ok_name (ds : Dataset) (var : String) (lat lon : SpatialSel)
    (time : Option (ℚ × ℚ)) (nr : Bool) (r : DataArray)
    (h : slice_dataset ds var lat lon time nr = .ok r) : r.name = some var := by
  unfold slice_dataset at h
  cases hds : dsLookup ds var with
  | none => rw [hds] at h; simp at h
  | some da =>
    rw [hds] at h
    have hda : da.name = some var := by
      unfold dsLookup at hds
      obtain ⟨p, hp, hpe⟩ := Option.map_eq_some'.mp hds
      rw [← hpe]
    rw [← hda]
    cases lat with
    | box la lb =>
      cases lon with
      | box loa lob =>
        rw [← Except.ok.inj h, name_applyTime, name_iselBoxLon,
          name_iselBoxLat]
      | pt y => exact name_scalarBranch da (.box la lb) (.pt y) nr time r h
    | pt x =>
      cases lon with
      | box loa lob =>
        exact name_scalarBranch da (.pt x) (.box loa lob) nr time r h
      | pt y => exact name_scalarBranch da (.pt x) (.pt y) nr time r h

/-- C1 amended: for every nonempty variable key, slicing, exporting and
loading the binary artifact back under the same key succeeds and returns an
array with the same shape and the same values. -/
theorem C1_round_trip (ds : Dataset) (var : String) (lat lon : SpatialSel)
    (time : Option (ℚ × ℚ)) (nr : Bool) (r : DataArray)
    (outDir basename : String) (hvar : var ≠ "")
    (hs : slice_dataset ds var lat lon time nr = .ok r)
    (hext : lowerStr (splitextExt ((save_outputs r outDir basename).ncPath)) =
      ".nc") :
    ∃ r2, load_dataset ((save_outputs r outDir basename).ncPath)
        (.nc ((save_outputs r outDir basename).nc)) var = .ok r2 ∧
      shape r2 = shape r ∧ r2.values = r.values := by
  have hname := slice_ok_name ds var lat lon time nr r hs
  have hor : orName r.name = var := by
    rw [hname]
    unfold orName
    show (if var = "" then "value" else var) = var
    rw [if_neg hvar]
  refine ⟨{ r with name := some var }, ?_, rfl, rfl⟩
  unfold load_dataset
  rw [hext, if_pos (Or.inl rfl)]
  show (match dsLookup ((save_outputs r outDir basename).nc) var with
    | none =>
      (.error (.varNotFoundNc var (dsVarNames
        ((save_outputs r outDir basename).nc))) : Except LoadErr DataArray)
    | some da => .ok da) = .ok { r with name := some var }
  have hnc : (save_outputs r outDir basename).nc =
      [(var, { r with name := some var })] := by
    simp [save_outputs, hor]
  rw [hnc]
  simp [dsLookup, List.find?]

/-- C1 witness: the fixture round-trips with identical shape and values. -/
theorem C1_witness :
    ∃ r2, load_dataset ((save_outputs arrV "d" "b").ncPath)
        (.nc ((save_outputs arrV "d" "b").nc)) "v" = .ok r2 ∧
      shape r2 = shape arrV ∧ r2.values = arrV.values :=
  C1_round_trip dsV "v" (.box 0 10) (.box 0 10) none true arrV "d" "b"
    (by decide) (by decide) (by decide)

/-- C1 counterexample: with the empty string as the variable key the slice
succeeds, but the export renames the variable to the fallback label, so
loading the artifact back under the original key fails: the round trip does
not hold for every present key. -/
theorem C1_cex :
    (slice_dataset dsE "" (.box 0 10) (.box 0 10) none true).isOk = true ∧
    roundTripOk dsE "" (.box 0 10) (.box 0 10) none "d" "b" = false :=
  ⟨by decide, by decide⟩

end Power
